import Mathlib

/-!
Verification of the client-side session/auth-state manager of the
volunteer-hub web application (`src/contexts/AuthContext.tsx`), shallowly
embedded in Lean.

JSON values are modelled by the inductive `Val`; a JSON object is an
association list `Obj` (JavaScript key-enumeration order is preserved by
`spreadObj`, and field access goes through `List.lookup`).  Network I/O is
modelled by oracles: each network call an operation performs is an explicit
`CallResult` argument (either a completed HTTP response with a status and a
JSON body, or a thrown transport error), and the retry wrapper
`fetchWithRetry` consumes a `Nat → Attempt` oracle giving the outcome of each
underlying `fetch` call.  Session operations are pure state transformers on
`Env` (the React `AuthState` plus the `localStorage` slot for the
`auth_token` key), returning the new `Env` and a `Bool` that is `true` when
the corresponding promise resolves and `false` when it rejects.
-/

namespace AuthSpec

/-- JSON-like runtime values (the subset exchanged with the API). -/
inductive Val where
  | str (s : String)
  | num (n : Int)
  | bool (b : Bool)
  | null
  | obj (fields : List (String × Val))
deriving Repr

/-- A JSON object: an association list of fields in enumeration order. -/
abbrev Obj := List (String × Val)

/-- JavaScript truthiness for the values above (`""`, `0`, `false`, `null`
are falsy, every object is truthy). -/
def truthy : Val → Bool
  | .str s => s ≠ ""
  | .num n => n ≠ 0
  | .bool b => b
  | .null => false
  | .obj _ => true

/-- Truthiness of a possibly-null JavaScript value (`none` models `null` /
`undefined`). -/
def truthyOpt : Option Val → Bool
  | some v => truthy v
  | none => false

/-- JavaScript string coercion, as applied by `localStorage.setItem`. -/
def jsToString : Val → String
  | .str s => s
  | .num n => toString n
  | .bool b => cond b "true" "false"
  | .null => "null"
  | .obj _ => "[object Object]"

/-- The own enumerable fields of a value, as seen by object spread
(`{...v}`): an object contributes its fields, `null` contributes nothing.
(Spreading a primitive also contributes no named fields of interest.) -/
def valFields : Val → Obj
  | .obj o => o
  | _ => []

/-- Fields of the current `user` value (`null` when absent). -/
def userFields (u : Option Val) : Obj := valFields (u.getD .null)

/-- JavaScript object spread `{...a, ...b}`: keys of `a` stay in place with
`b`'s value where `b` also has the key; keys only in `b` follow in `b`'s
order. -/
def spreadObj (a b : Obj) : Obj :=
  (a.map fun kv => (kv.1, (List.lookup kv.1 b).getD kv.2)) ++
    b.filter fun kv => (List.lookup kv.1 a).isNone

theorem lookup_map_override (a b : Obj) (k : String) :
    List.lookup k (a.map fun kv => (kv.1, (List.lookup kv.1 b).getD kv.2)) =
      match List.lookup k a with
      | some v => some ((List.lookup k b).getD v)
      | none => none := by
  induction a with
  | nil => simp [List.lookup]
  | cons kv rest ih =>
    obtain ⟨k', v'⟩ := kv
    by_cases hk : k = k'
    · subst hk
      simp [List.lookup]
    · have hbeq : (k == k') = false := beq_eq_false_iff_ne.mpr hk
      simp [List.lookup, hbeq, ih]

theorem lookup_filter_keep (a b : Obj) (k : String) :
    List.lookup k (b.filter fun kv => (List.lookup kv.1 a).isNone) =
      if (List.lookup k a).isNone then List.lookup k b else none := by
  induction b with
  | nil => simp [List.lookup]
  | cons kv rest ih =>
    obtain ⟨k', v'⟩ := kv
    by_cases hk : k = k'
    · subst hk
      cases h : (List.lookup k a).isNone <;>
        simp [List.filter, List.lookup, h, ih]
    · have hbeq : (k == k') = false := beq_eq_false_iff_ne.mpr hk
      cases h : (List.lookup k' a).isNone <;>
        simp [List.filter, List.lookup, h, hbeq, ih]

/-- Field access after an object spread: `b`'s binding wins, otherwise
`a`'s binding survives. -/
theorem lookup_spreadObj (a b : Obj) (k : String) :
    List.lookup k (spreadObj a b) =
      match List.lookup k b with
      | some v => some v
      | none => List.lookup k a := by
  unfold spreadObj
  rw [List.lookup_append, lookup_map_override, lookup_filter_keep]
  cases ha : List.lookup k a <;> cases hb : List.lookup k b <;> simp

/-! ## Resilient Fetch (`fetchWithRetry`, AuthContext.tsx lines 54-86) -/

/-- Outcome of one underlying `fetch` call: either the promise rejects with
a transport error, or it completes with an HTTP status and a JSON body. -/
inductive Attempt where
  | threw (e : String)
  | completed (status : Nat) (body : Obj)

/-- The message of the error thrown when a completed response has status
504. -/
def gatewayMsg : String := "Gateway timeout - server is taking too long to respond"

/-- The body of the `try` block: a completed 504 response is turned into a
thrown error, any other completion is returned as-is. -/
def attemptOutcome : Attempt → Except String (Nat × Obj)
  | .threw e => .error e
  | .completed s b => if s = 504 then .error gatewayMsg else .ok (s, b)

/-- Whether an attempt lands in the `catch` block. -/
def attemptFails (a : Attempt) : Bool :=
  match attemptOutcome a with
  | .error _ => true
  | .ok _ => false

/-- The error carried into the `catch` block by a failing attempt. -/
def errMsg : Attempt → String
  | .threw e => e
  | .completed _ _ => gatewayMsg

/-- How a `fetchWithRetry` call ends: a returned response, a raised error,
or the implicit `undefined` when the loop body never runs (`retries = 0`). -/
inductive RFResult where
  | returned (status : Nat) (body : Obj)
  | raised (e : String)
  | undef

/-- Observable trace of one `fetchWithRetry` call: how it ended, how many
underlying `fetch` calls were made, and the `setTimeout` sleeps (in
milliseconds, in order) between consecutive attempts. -/
structure Trace where
  res : RFResult
  calls : Nat
  delays : List Nat

/-- The `for (let i = 0; i < retries; i++)` loop, with `i` the current
index and the second argument the number of remaining iterations.  In the
`catch` block the error is rethrown when `i = retries - 1` (no iterations
remain after this one); otherwise the loop sleeps 1000 ms and retries. -/
def fetchLoop (attempts : Nat → Attempt) (i : Nat) : Nat → Trace
  | 0 => ⟨.undef, 0, []⟩
  | rem + 1 =>
    match attemptOutcome (attempts i) with
    | .ok (s, b) => ⟨.returned s b, 1, []⟩
    | .error e =>
      if rem = 0 then ⟨.raised e, 1, []⟩
      else
        let t := fetchLoop attempts (i + 1) rem
        ⟨t.res, t.calls + 1, 1000 :: t.delays⟩

/-- `fetchWithRetry(url, options, retries)`, abstracted over the outcome of
each underlying `fetch` call (the URL, headers and body do not influence
the control flow being verified). -/
def fetchWithRetry (attempts : Nat → Attempt) (retries : Nat) : Trace :=
  fetchLoop attempts 0 retries

theorem attemptOutcome_of_fails (a : Attempt) (h : attemptFails a = true) :
    attemptOutcome a = .error (errMsg a) := by
  cases a with
  | threw e => rfl
  | completed s b =>
    unfold attemptFails at h
    unfold attemptOutcome errMsg at *
    by_cases hs : s = 504
    · simp [hs]
    · simp [hs] at h

theorem fetchLoop_success (attempts : Nat → Attempt) (j : Nat) :
    ∀ i rem s b,
      (∀ t, t < j → attemptFails (attempts (i + t)) = true) →
      attempts (i + j) = .completed s b → s ≠ 504 → j < rem →
      fetchLoop attempts i rem = ⟨.returned s b, j + 1, List.replicate j 1000⟩ := by
  induction j with
  | zero =>
    intro i rem s b _ hsucc hs hrem
    obtain ⟨rem', rfl⟩ : ∃ rem', rem = rem' + 1 :=
      ⟨rem - 1, (Nat.succ_pred_eq_of_pos hrem).symm⟩
    rw [Nat.add_zero] at hsucc
    simp [fetchLoop, attemptOutcome, hsucc, hs]
  | succ j ih =>
    intro i rem s b hfail hsucc hs hrem
    obtain ⟨rem', rfl⟩ : ∃ rem', rem = rem' + 1 :=
      ⟨rem - 1, (Nat.succ_pred_eq_of_pos (Nat.lt_of_le_of_lt (Nat.zero_le _) hrem)).symm⟩
    have hj : j < rem' := Nat.lt_of_succ_lt_succ hrem
    have h0 : attemptFails (attempts i) = true := by
      have := hfail 0 (Nat.succ_pos j)
      simpa using this
    have hrest : ∀ t, t < j → attemptFails (attempts (i + 1 + t)) = true := by
      intro t ht
      have := hfail (t + 1) (Nat.succ_lt_succ ht)
      have harr : i + (t + 1) = i + 1 + t := by omega
      rwa [harr] at this
    have hsucc' : attempts (i + 1 + j) = .completed s b := by
      have harr : i + (j + 1) = i + 1 + j := by omega
      rwa [harr] at hsucc
    have hne : ¬ rem' = 0 := by omega
    rw [show (rem' + 1 : Nat) = rem' + 1 from rfl]
    simp only [fetchLoop, attemptOutcome_of_fails _ h0]
    rw [if_neg hne]
    rw [ih (i + 1) rem' s b hrest hsucc' hs hj]
    simp [List.replicate]

/-! ## Session state and operations (`AuthProvider`, AuthContext.tsx) -/

/-- The React `AuthState` (AuthContext.tsx lines 31-36).  The `user` field
holds whatever JSON value the identity endpoints produced, and the `token`
field holds whatever value was assigned to it at runtime (`login` assigns
the raw `data.token`, which need not be a string when the server deviates
from the contract); `none` models `null`/`undefined`, i.e. the field being
absent. -/
structure AuthState where
  user : Option Val
  token : Option Val
  isAuthenticated : Bool
  isLoading : Bool
deriving Repr

/-- Whether a Credential is present in the `token` slot: the TypeScript
type is `string | null`, so `null`/`undefined` (`none`) and an explicit
JSON `null` both mean the Credential is absent; any other runtime value is
a present (possibly junk) Credential. -/
def tokenPresent : Option Val → Bool
  | none => false
  | some .null => false
  | some _ => true

/-- The session environment: the in-memory `AuthState` plus the durable
`localStorage` slot for the `auth_token` key (`none` = key absent). -/
structure Env where
  state : AuthState
  storage : Option String
deriving Repr

/-- Outcome of one API call as seen by a Controller operation: either the
(possibly retried) fetch ultimately threw, or it completed with an HTTP
status and a parsed JSON body. -/
inductive CallResult where
  | threw
  | resp (status : Nat) (body : Obj)

/-- `Response.ok` per the Fetch standard: status in the range 200-299. -/
def respOk (s : Nat) : Bool := decide (200 ≤ s ∧ s < 300)

/-- Whether a call counts as failed for the session operations (a thrown
transport error or a non-2xx response). -/
def callFailed : CallResult → Bool
  | .threw => true
  | .resp s _ => !respOk s

/-- `responseData.user || responseData` (the nested-user unwrapping used by
`loadUser`, `login` and `verifyOtp`). -/
def unwrapUser (b : Obj) : Val :=
  match List.lookup "user" b with
  | some v => if truthy v then v else .obj b
  | none => .obj b

/-- The string stored by `localStorage.setItem("auth_token", data.token)`:
`setItem` coerces its argument to a string, and a missing `token` field
(`undefined`) coerces to `"undefined"`. -/
def tokenStrOf (b : Obj) : String :=
  match List.lookup "token" b with
  | some v => jsToString v
  | none => "undefined"

/-- The initial `useState` value (lines 89-94): no user, token read from
`localStorage` (`getItem` returns a string or `null`), not authenticated,
loading. -/
def initState (storage : Option String) : AuthState :=
  ⟨none, storage.map Val.str, false, true⟩

/-- Bootstrap (`loadUser`, lines 97-145).  Reads the token from durable
storage; with no token it only clears `isLoading`.  With a token, the
identity fetch's outcome `c` decides: a 2xx response installs the
(unwrapped) user and authenticates; a non-2xx response removes the stored
token and resets the state; a thrown error (including retry exhaustion)
only clears `isLoading`.  The function is total: the `catch` swallows every
error, so bootstrap never rejects. -/
def loadUser (env : Env) (c : CallResult) : Env :=
  match env.storage with
  | none => { env with state := { env.state with isLoading := false } }
  | some t =>
    match c with
    | .threw => { env with state := { env.state with isLoading := false } }
    | .resp s b =>
      if respOk s then
        { state := { user := some (unwrapUser b), token := some (.str t),
                     isAuthenticated := true, isLoading := false },
          storage := env.storage }
      else
        { state := { user := none, token := none,
                     isAuthenticated := false, isLoading := false },
          storage := none }

/-- Login (lines 170-221), with `lc` the outcome of the `/api/auth/login`
call and `fc` the outcome of the follow-up `/api/user/me` fetch.  On a 2xx
login response, `setItem` writes the *string-coerced* `data.token` to
durable storage (line 186) *before* the identity fetch; a failing identity
fetch then rejects with the storage write left in place and the in-memory
state untouched.  On full success, `setAuthState` (line 210) assigns the
*raw* `data.token` to the state — when the 2xx body has no `token` field
this is `undefined` (`none`), so the program can end Authenticated with an
absent in-memory Credential while storage holds the string "undefined". -/
def login (env : Env) (lc fc : CallResult) : Env × Bool :=
  match lc with
  | .threw => (env, false)
  | .resp s b =>
    if respOk s then
      let tok := tokenStrOf b
      let env1 : Env := { env with storage := some tok }
      match fc with
      | .threw => (env1, false)
      | .resp s2 b2 =>
        if respOk s2 then
          ({ state := { user := some (unwrapUser b2),
                        token := List.lookup "token" b,
                        isAuthenticated := true, isLoading := false },
             storage := some tok }, true)
        else (env1, false)
    else (env, false)

/-- Register (lines 148-167): never mutates session state or storage;
resolves exactly when the response is 2xx. -/
def register (env : Env) (c : CallResult) : Env × Bool :=
  match c with
  | .threw => (env, false)
  | .resp s _ => (env, respOk s)

/-- Logout (lines 224-233): synchronous, removes the stored token and
resets the state; no network call (the function takes no `CallResult`)
and no failure path (it returns plain `Env`). -/
def logout (env : Env) : Env :=
  { state := { user := none, token := none,
               isAuthenticated := false, isLoading := false },
    storage := none }

/-- UpdateUserProfile (lines 236-276).  Rejects locally when the in-memory
state holds no token (the `CallResult` is then irrelevant: no network call
happens).  On a 2xx response the raw body is spread over the existing user
(`{...prev.user!, ...updatedUser}`); note the body is *not* unwrapped
through `responseData.user || responseData` here. -/
def updateUserProfile (env : Env) (userData : Obj) (c : CallResult) : Env × Bool :=
  match env.state.token with
  | none => (env, false)
  | some _ =>
    match c with
    | .threw => (env, false)
    | .resp s b =>
      if respOk s then
        ({ env with state := { env.state with
             user := some (.obj (spreadObj (userFields env.state.user) b)) } }, true)
      else (env, false)

/-- UpdateAddress (lines 279-321).  Rejects locally without a token; on a
2xx response the response body is discarded and, when a (truthy) user is
present, the user's `address` field is set to the caller's `addressData`
(`{...prev.user!, address: addressData}`). -/
def updateAddress (env : Env) (addressData : Val) (c : CallResult) : Env × Bool :=
  match env.state.token with
  | none => (env, false)
  | some _ =>
    match c with
    | .threw => (env, false)
    | .resp s _ =>
      if respOk s then
        if truthyOpt env.state.user then
          ({ env with state := { env.state with
               user := some (.obj (spreadObj (userFields env.state.user)
                 [("address", addressData)])) } }, true)
        else (env, true)
      else (env, false)

/-- VerifyOtp (lines 324-371), with `c` the outcome of the verify call and
`fc` the outcome of the conditional follow-up identity fetch (performed
only when the 2xx verify response carries a truthy `token`).  As in
`login`, storage receives the string-coerced token while the state (line
360) receives the raw `data.token` — here necessarily a truthy value,
since the whole branch is guarded by `if (data.token)`. -/
def verifyOtp (env : Env) (c fc : CallResult) : Env × Bool :=
  match c with
  | .threw => (env, false)
  | .resp s b =>
    if respOk s then
      match List.lookup "token" b with
      | some v =>
        if truthy v then
          let tok := jsToString v
          let env1 : Env := { env with storage := some tok }
          match fc with
          | .threw => (env1, false)
          | .resp s2 b2 =>
            if respOk s2 then
              ({ state := { user := some (unwrapUser b2), token := some v,
                            isAuthenticated := true, isLoading := false },
                 storage := some tok }, true)
            else (env1, false)
        else (env, true)
      | none => (env, true)
    else (env, false)

/-- ResendOtp (lines 374-392): side-effect-only, never mutates the
session. -/
def resendOtp (env : Env) (c : CallResult) : Env × Bool :=
  match c with
  | .threw => (env, false)
  | .resp s _ => (env, respOk s)

/-! ## Ghost instrumentation: "the most recent identity fetch succeeded"

The SessionState invariant (spec §3) refers to the success of the most
recent identity fetch (`GET /api/user/me`).  That is not a field of the
program state, so we track it as ghost state alongside `Env`: each wrapper
below applies the corresponding source operation to the environment and
updates the ghost flag exactly when the operation performs an identity
fetch (bootstrap with a stored token; login's follow-up fetch after a 2xx
login response; verifyOtp's follow-up fetch after a 2xx response whose body
carries a truthy token).  The profile/address updates use
`POST /api/user/me` / `POST /api/user/address/update`, which §6 classifies
as updates, not identity fetches. -/

/-- Session environment plus the ghost flag recording whether the most
recent identity fetch succeeded (`false` initially, before any fetch). -/
structure GEnv where
  env : Env
  lastFetchOk : Bool

/-- Whether a call outcome counts as a successful identity fetch. -/
def fetchOkOf : CallResult → Bool
  | .threw => false
  | .resp s _ => respOk s

/-- Bootstrap with ghost tracking: an identity fetch happens exactly when a
token is stored. -/
def loadUserG (g : GEnv) (c : CallResult) : GEnv :=
  ⟨loadUser g.env c,
   match g.env.storage with
   | none => g.lastFetchOk
   | some _ => fetchOkOf c⟩

/-- Login with ghost tracking: the identity fetch happens exactly when the
login call returns 2xx. -/
def loginG (g : GEnv) (lc fc : CallResult) : GEnv :=
  ⟨(login g.env lc fc).1,
   match lc with
   | .threw => g.lastFetchOk
   | .resp s _ => if respOk s then fetchOkOf fc else g.lastFetchOk⟩

/-- VerifyOtp with ghost tracking: the identity fetch happens exactly when
the 2xx verify response carries a truthy token. -/
def verifyOtpG (g : GEnv) (c fc : CallResult) : GEnv :=
  ⟨(verifyOtp g.env c fc).1,
   match c with
   | .threw => g.lastFetchOk
   | .resp s b =>
     if respOk s then
       match List.lookup "token" b with
       | some v => if truthy v then fetchOkOf fc else g.lastFetchOk
       | none => g.lastFetchOk
     else g.lastFetchOk⟩

/-- One Controller operation, invocable from any state (the source puts no
guard on any of them beyond what the operation itself checks). -/
inductive OpStep : GEnv → GEnv → Prop where
  | bootstrap (g : GEnv) (c : CallResult) : OpStep g (loadUserG g c)
  | loginStep (g : GEnv) (lc fc : CallResult) : OpStep g (loginG g lc fc)
  | registerStep (g : GEnv) (c : CallResult) :
      OpStep g ⟨(register g.env c).1, g.lastFetchOk⟩
  | logoutStep (g : GEnv) : OpStep g ⟨logout g.env, g.lastFetchOk⟩
  | verifyStep (g : GEnv) (c fc : CallResult) : OpStep g (verifyOtpG g c fc)
  | resendStep (g : GEnv) (c : CallResult) :
      OpStep g ⟨(resendOtp g.env c).1, g.lastFetchOk⟩
  | profileStep (g : GEnv) (d : Obj) (c : CallResult) :
      OpStep g ⟨(updateUserProfile g.env d c).1, g.lastFetchOk⟩
  | addressStep (g : GEnv) (a : Val) (c : CallResult) :
      OpStep g ⟨(updateAddress g.env a c).1, g.lastFetchOk⟩

/-- States reachable from process start (storage arbitrary, `AuthState`
initialised from it, no identity fetch performed yet) by any sequence of
Controller operations. -/
inductive Reachable : GEnv → Prop where
  | init (storage : Option String) : Reachable ⟨⟨initState storage, storage⟩, false⟩
  | step {g g' : GEnv} : Reachable g → OpStep g g' → Reachable g'

/-- Whether a login-call outcome conforms to the §6 login contract as far
as the token is concerned: a 2xx login response must actually carry a
`token` field (with a non-`null` value).  Failed calls and non-2xx
responses are unconstrained. -/
def loginBodyOk : CallResult → Bool
  | .threw => true
  | .resp s b => !respOk s || tokenPresent (List.lookup "token" b)

/-- One Controller operation in the program's intended flow: bootstrap,
login and verifyOtp run only while unauthenticated (bootstrap is the mount
effect, which runs on the freshly initialised state; login and verifyOtp
are typed Anonymous → ... in spec §4.3), and every 2xx login response
carries a token as §6's contract specifies — without the latter the
program reaches Authenticated states with the Credential absent (see
`login_without_token_breaks_invariant`). -/
inductive OpStepR : GEnv → GEnv → Prop where
  | bootstrap (g : GEnv) (c : CallResult)
      (h : g.env.state.isAuthenticated = false) : OpStepR g (loadUserG g c)
  | loginStep (g : GEnv) (lc fc : CallResult)
      (h : g.env.state.isAuthenticated = false)
      (hb : loginBodyOk lc = true) : OpStepR g (loginG g lc fc)
  | registerStep (g : GEnv) (c : CallResult) :
      OpStepR g ⟨(register g.env c).1, g.lastFetchOk⟩
  | logoutStep (g : GEnv) : OpStepR g ⟨logout g.env, g.lastFetchOk⟩
  | verifyStep (g : GEnv) (c fc : CallResult)
      (h : g.env.state.isAuthenticated = false) : OpStepR g (verifyOtpG g c fc)
  | resendStep (g : GEnv) (c : CallResult) :
      OpStepR g ⟨(resendOtp g.env c).1, g.lastFetchOk⟩
  | profileStep (g : GEnv) (d : Obj) (c : CallResult) :
      OpStepR g ⟨(updateUserProfile g.env d c).1, g.lastFetchOk⟩
  | addressStep (g : GEnv) (a : Val) (c : CallResult) :
      OpStepR g ⟨(updateAddress g.env a c).1, g.lastFetchOk⟩

/-- Reachability along the program's intended flow. -/
inductive ReachableR : GEnv → Prop where
  | init (storage : Option String) : ReachableR ⟨⟨initState storage, storage⟩, false⟩
  | step {g g' : GEnv} : ReachableR g → OpStepR g g' → ReachableR g'

/-- The inductive strengthening of the authenticated-iff invariant: the iff
itself, plus the auxiliary fact that a successful most-recent identity
fetch together with a present in-state Credential forces
`isAuthenticated`. -/
def Inv (g : GEnv) : Prop :=
  (g.env.state.isAuthenticated =
    (tokenPresent g.env.state.token && g.env.state.user.isSome && g.lastFetchOk))
  ∧ (g.lastFetchOk = true → tokenPresent g.env.state.token = true →
      g.env.state.isAuthenticated = true)

/-- A truthy JavaScript value is in particular not `null`, hence a present
Credential when stored in the token slot. -/
theorem tokenPresent_of_truthy (v : Val) (h : truthy v = true) :
    tokenPresent (some v) = true := by
  cases v <;> simp_all [truthy, tokenPresent]

theorem register_fst (env : Env) (c : CallResult) : (register env c).1 = env := by
  cases c <;> rfl

theorem resendOtp_fst (env : Env) (c : CallResult) : (resendOtp env c).1 = env := by
  cases c <;> rfl

theorem inv_loadUserG (g : GEnv) (c : CallResult)
    (hg : Inv g) (ha : g.env.state.isAuthenticated = false) :
    Inv (loadUserG g c) := by
  obtain ⟨⟨⟨u, t, auth, load⟩, st⟩, lfo⟩ := g
  obtain ⟨h1, h2⟩ := hg
  simp only at ha
  subst ha
  cases st with
  | none =>
    refine ⟨?_, ?_⟩ <;> simp_all [loadUserG, loadUser, Inv]
  | some tok =>
    cases c with
    | threw =>
      constructor <;> simp_all [loadUserG, loadUser, fetchOkOf]
    | resp s b =>
      by_cases hs : respOk s = true <;>
        constructor <;> simp_all [loadUserG, loadUser, fetchOkOf, tokenPresent]

theorem inv_loginG (g : GEnv) (lc fc : CallResult)
    (hg : Inv g) (ha : g.env.state.isAuthenticated = false)
    (hb : loginBodyOk lc = true) :
    Inv (loginG g lc fc) := by
  obtain ⟨⟨⟨u, t, auth, load⟩, st⟩, lfo⟩ := g
  obtain ⟨h1, h2⟩ := hg
  simp only at ha
  subst ha
  cases lc with
  | threw => exact ⟨h1, h2⟩
  | resp s b =>
    by_cases hs : respOk s = true
    · have hpres : tokenPresent (List.lookup "token" b) = true := by
        simpa [loginBodyOk, hs] using hb
      cases fc with
      | threw =>
        constructor <;> simp_all [loginG, login, fetchOkOf, hs]
      | resp s2 b2 =>
        by_cases hs2 : respOk s2 = true <;>
          constructor <;> simp_all [loginG, login, fetchOkOf, hs, hpres]
    · constructor <;> simp_all [loginG, login, hs]

theorem inv_verifyOtpG (g : GEnv) (c fc : CallResult)
    (hg : Inv g) (ha : g.env.state.isAuthenticated = false) :
    Inv (verifyOtpG g c fc) := by
  obtain ⟨⟨⟨u, t, auth, load⟩, st⟩, lfo⟩ := g
  obtain ⟨h1, h2⟩ := hg
  simp only at ha
  subst ha
  cases c with
  | threw => exact ⟨h1, h2⟩
  | resp s b =>
    by_cases hs : respOk s = true
    · cases htok : List.lookup "token" b with
      | none =>
        constructor <;> simp only [verifyOtpG, verifyOtp, htok] <;> simp_all
      | some v =>
        by_cases hv : truthy v = true
        · have hpres := tokenPresent_of_truthy v hv
          cases fc with
          | threw =>
            constructor <;> simp_all [verifyOtpG, verifyOtp, fetchOkOf, hs, htok, hv]
          | resp s2 b2 =>
            by_cases hs2 : respOk s2 = true <;>
              constructor <;>
                simp_all [verifyOtpG, verifyOtp, fetchOkOf, hs, htok, hv, hpres]
        · constructor <;> simp_all [verifyOtpG, verifyOtp, hs, htok, hv]
    · constructor <;> simp_all [verifyOtpG, verifyOtp, hs]

theorem inv_logout (g : GEnv) : Inv ⟨logout g.env, g.lastFetchOk⟩ := by
  constructor <;> simp [logout, tokenPresent]

theorem inv_profile (g : GEnv) (d : Obj) (c : CallResult) (hg : Inv g) :
    Inv ⟨(updateUserProfile g.env d c).1, g.lastFetchOk⟩ := by
  obtain ⟨⟨⟨u, t, auth, load⟩, st⟩, lfo⟩ := g
  obtain ⟨h1, h2⟩ := hg
  cases t with
  | none => exact ⟨h1, h2⟩
  | some tok =>
    cases c with
    | threw => exact ⟨h1, h2⟩
    | resp s b =>
      by_cases hs : respOk s = true
      · cases htp : tokenPresent (some tok) <;>
          constructor <;> simp_all [updateUserProfile, hs]
      · constructor <;> simp_all [updateUserProfile, hs]

theorem inv_address (g : GEnv) (a : Val) (c : CallResult) (hg : Inv g) :
    Inv ⟨(updateAddress g.env a c).1, g.lastFetchOk⟩ := by
  obtain ⟨⟨⟨u, t, auth, load⟩, st⟩, lfo⟩ := g
  obtain ⟨h1, h2⟩ := hg
  cases t with
  | none => exact ⟨h1, h2⟩
  | some tok =>
    cases c with
    | threw => exact ⟨h1, h2⟩
    | resp s b =>
      by_cases hs : respOk s = true
      · by_cases hu : truthyOpt u = true
        · cases htp : tokenPresent (some tok) <;>
            constructor <;> simp_all [updateAddress, hs, hu]
        · constructor <;> simp_all [updateAddress, hs, hu]
      · constructor <;> simp_all [updateAddress, hs]

theorem inv_stepR {g g' : GEnv} (hg : Inv g) (hs : OpStepR g g') : Inv g' := by
  cases hs with
  | bootstrap c h => exact inv_loadUserG _ c hg h
  | loginStep lc fc h hb => exact inv_loginG _ lc fc hg h hb
  | registerStep c => rw [register_fst]; exact hg
  | logoutStep => exact inv_logout _
  | verifyStep c fc h => exact inv_verifyOtpG _ c fc hg h
  | resendStep c => rw [resendOtp_fst]; exact hg
  | profileStep d c => exact inv_profile _ d c hg
  | addressStep a c => exact inv_address _ a c hg

theorem inv_init (storage : Option String) :
    Inv ⟨⟨initState storage, storage⟩, false⟩ := by
  constructor <;> simp [initState]

theorem inv_reachableR {g : GEnv} (h : ReachableR g) : Inv g := by
  induction h with
  | init storage => exact inv_init storage
  | step _ hs ih => exact inv_stepR ih hs

theorem fetchLoop_exhaust (attempts : Nat → Attempt) :
    ∀ rem i, 0 < rem → (∀ t, t < rem → attemptFails (attempts (i + t)) = true) →
      fetchLoop attempts i rem =
        ⟨.raised (errMsg (attempts (i + (rem - 1)))), rem, List.replicate (rem - 1) 1000⟩ := by
  intro rem
  induction rem with
  | zero =>
    intro i hpos _
    exact absurd hpos (by omega)
  | succ rem ih =>
    intro i _ hfail
    have h0 := attemptOutcome_of_fails _ (by simpa using hfail 0 (by omega))
    simp only [fetchLoop, h0]
    by_cases hrem : rem = 0
    · subst hrem
      simp
    · rw [if_neg hrem]
      have hrest : ∀ t, t < rem → attemptFails (attempts (i + 1 + t)) = true := by
        intro t ht
        have := hfail (t + 1) (by omega)
        have harr : i + (t + 1) = i + 1 + t := by omega
        rwa [harr] at this
      rw [ih (i + 1) (by omega) hrest]
      have h1 : i + 1 + (rem - 1) = i + (rem + 1 - 1) := by omega
      have h3 : (1000 : Nat) :: List.replicate (rem - 1) 1000 =
          List.replicate (rem + 1 - 1) 1000 := by
        have h2 : rem - 1 + 1 = rem := by omega
        rw [← List.replicate_succ, h2, Nat.add_sub_cancel]
      rw [h1, h3]

/-! ## The claims -/

/-- An anonymous session: empty state, empty storage. -/
def anonEnv : Env := ⟨⟨none, none, false, false⟩, none⟩

/-- Claim C1, counterexample.  The claim asserts that when the login call
succeeds but the follow-up identity fetch fails, no Credential from the
failed-to-confirm login is persisted to durable storage.  The code persists
the token (line 186) *before* the identity fetch and never removes it on
that fetch's failure: starting from an anonymous session, a 2xx login
response carrying token "tok1" followed by a thrown identity fetch leaves
"tok1" in durable storage even though the operation rejects. -/
theorem c1_counterexample :
    (login anonEnv (.resp 200 [("token", .str "tok1")]) .threw).1.storage = some "tok1" ∧
    (login anonEnv (.resp 200 [("token", .str "tok1")]) .threw).2 = false :=
  ⟨rfl, rfl⟩

/-- Claim C1, amended.  For every login call made while unauthenticated in
which the login request returns 2xx but the follow-up identity fetch fails
(transport error or non-2xx), the resulting SessionState is not
Authenticated, the operation rejects, and the Credential returned by the
login call IS persisted to durable storage (the alternative policy of spec
§8.4: persisted Credential with `authenticated = false` until a future
successful identity fetch). -/
theorem c1_login_atomicity (env : Env) (s : Nat) (b : Obj) (fc : CallResult)
    (hauth : env.state.isAuthenticated = false)
    (hs : respOk s = true) (hfc : callFailed fc = true) :
    (login env (.resp s b) fc).1.state.isAuthenticated = false ∧
    (login env (.resp s b) fc).2 = false ∧
    (login env (.resp s b) fc).1.storage = some (tokenStrOf b) := by
  cases fc with
  | threw => refine ⟨?_, ?_, ?_⟩ <;> simp [login, hs, hauth]
  | resp s2 b2 =>
    have hs2 : respOk s2 = false := by simpa [callFailed] using hfc
    refine ⟨?_, ?_, ?_⟩ <;> simp [login, hs, hs2, hauth]

/-- Witness for the amended C1 at a concrete input. -/
theorem c1_witness :
    anonEnv.state.isAuthenticated = false ∧ respOk 200 = true ∧
    callFailed .threw = true ∧
    ((login anonEnv (.resp 200 [("token", .str "tok9")]) .threw).1.state.isAuthenticated = false ∧
     (login anonEnv (.resp 200 [("token", .str "tok9")]) .threw).2 = false ∧
     (login anonEnv (.resp 200 [("token", .str "tok9")]) .threw).1.storage =
       some (tokenStrOf [("token", .str "tok9")])) :=
  ⟨rfl, by decide, rfl,
   c1_login_atomicity anonEnv 200 [("token", .str "tok9")] .threw rfl (by decide) rfl⟩

/-- Claim C2, counterexample.  The claim asserts that a bootstrap run with
a stored Credential whose identity fetch does not succeed — including
exhaustion of the retry budget by transport failures — removes the stored
Credential and leaves the Anonymous state.  On the thrown-error path
(retry exhaustion) the `catch` block (lines 138-141) only clears
`isLoading`: the token stays in durable storage and in SessionState. -/
theorem c2_counterexample :
    (loadUser ⟨initState (some "tok"), some "tok"⟩ .threw).storage = some "tok" ∧
    (loadUser ⟨initState (some "tok"), some "tok"⟩ .threw).state.token = some (.str "tok") ∧
    (loadUser ⟨initState (some "tok"), some "tok"⟩ .threw).state.isLoading = false :=
  ⟨rfl, rfl, rfl⟩

/-- Claim C2, amended.  A bootstrap run with a stored Credential whose
identity fetch completes with a non-2xx status removes the stored
Credential and yields the Anonymous state (user, token absent,
`authenticated = false`) with `loading = false`; but when the fetch throws
(retry budget exhausted by transport failures), the stored Credential is
retained and only `loading` is cleared, the rest of the state unchanged.
Neither path leaves `loading = true`. -/
theorem c2_bootstrap_discard (st : AuthState) (t : String) (s : Nat) (b : Obj)
    (hs : respOk s = false) :
    loadUser ⟨st, some t⟩ (.resp s b) = ⟨⟨none, none, false, false⟩, none⟩ ∧
    loadUser ⟨st, some t⟩ .threw =
      ⟨⟨st.user, st.token, st.isAuthenticated, false⟩, some t⟩ := by
  constructor
  · simp [loadUser, hs]
  · rfl

/-- Witness for the amended C2 at a concrete input. -/
theorem c2_witness :
    respOk 500 = false ∧
    (loadUser ⟨⟨none, some (.str "tok"), false, true⟩, some "tok"⟩ (.resp 500 []) =
        ⟨⟨none, none, false, false⟩, none⟩ ∧
     loadUser ⟨⟨none, some (.str "tok"), false, true⟩, some "tok"⟩ .threw =
        ⟨⟨none, some (.str "tok"), false, false⟩, some "tok"⟩) :=
  ⟨by decide,
   c2_bootstrap_discard ⟨none, some (.str "tok"), false, true⟩ "tok" 500 [] (by decide)⟩

/-- A stored user record with several known fields. -/
def c3User : Obj :=
  [("uuid", .str "u1"), ("email", .str "a@b.c"), ("first", .str "Old"),
   ("role", .str "user"), ("verified", .bool true)]

/-- An authenticated session holding `c3User`. -/
def c3Env : Env := ⟨⟨some (.obj c3User), some (.str "tok"), true, false⟩, some "tok"⟩

/-- A profile-update response wrapped as `{ user: ... }`, a shape spec §6
allows for `POST /api/user/me`. -/
def c3Resp : Obj := [("user", .obj [("first", .str "New")])]

/-- Claim C3 (code bug), evaluation at the failing input.  The merge at
lines 262-268 spreads the *raw* response body over the existing user
without the `responseData.user || responseData` unwrapping used by
`loadUser`, `login` and `verifyOtp`.  For the wrapped response
`{user: {first: "New"}}` the merged record therefore keeps `first = "Old"`
(the field present in the wrapped UserRecord is not overwritten) and gains
a spurious `user` field holding the nested record, contradicting the merge
invariant the claim states. -/
theorem c3_merge_wrapped_eval :
    (updateUserProfile c3Env [] (.resp 200 c3Resp)).2 = true ∧
    List.lookup "first"
      (userFields (updateUserProfile c3Env [] (.resp 200 c3Resp)).1.state.user) =
      some (.str "Old") ∧
    List.lookup "user"
      (userFields (updateUserProfile c3Env [] (.resp 200 c3Resp)).1.state.user) =
      some (.obj [("first", .str "New")]) :=
  ⟨rfl, rfl, rfl⟩

/-- Claim C4.  A Resilient Fetch with a retry budget of 3 attempts in which
every attempt fails (throws, or completes with HTTP 504) rejects with the
error of the last attempt, makes exactly 3 underlying fetch calls, and
sleeps a fixed 1000 ms between consecutive attempts (two delays). -/
theorem c4_retry_exhaustion (attempts : Nat → Attempt)
    (hfail : ∀ i, i < 3 → attemptFails (attempts i) = true) :
    fetchWithRetry attempts 3 = ⟨.raised (errMsg (attempts 2)), 3, [1000, 1000]⟩ := by
  have h := fetchLoop_exhaust attempts 3 0 (by omega)
    (by intro t ht; simpa using hfail t (by omega))
  simpa [fetchWithRetry, List.replicate] using h

/-- A run in which every attempt fails: transport error, then a 504
completion, then another transport error. -/
def c4Attempts : Nat → Attempt := fun i =>
  if i = 0 then .threw "network down" else if i = 1 then .completed 504 [] else .threw "refused"

/-- Witness for C4 at a concrete run. -/
theorem c4_witness :
    (∀ i, i < 3 → attemptFails (c4Attempts i) = true) ∧
    fetchWithRetry c4Attempts 3 = ⟨.raised "refused", 3, [1000, 1000]⟩ :=
  ⟨by decide, c4_retry_exhaustion c4Attempts (by decide)⟩

/-- Claim C5.  Whenever an underlying fetch completes without throwing and
with any status other than 504 (at attempt index `j`, every earlier attempt
having failed), Resilient Fetch returns that raw response immediately on
that attempt: `j + 1` fetch calls in total, no further attempts, and no
delay beyond the `j` sleeps that preceded the earlier retries.  Retries
thus occur only on thrown transport errors and on status 504. -/
theorem c5_no_retry_on_business (attempts : Nat → Attempt) (retries j s : Nat) (b : Obj)
    (hfail : ∀ t, t < j → attemptFails (attempts t) = true)
    (hsucc : attempts j = .completed s b) (hs : s ≠ 504) (hj : j < retries) :
    fetchWithRetry attempts retries = ⟨.returned s b, j + 1, List.replicate j 1000⟩ := by
  have h := fetchLoop_success attempts j 0 retries s b
    (by intro t ht; simpa using hfail t ht) (by simpa using hsucc) hs hj
  simpa [fetchWithRetry] using h

/-- A run whose first attempt throws and whose second completes with a 404
business error. -/
def c5Attempts : Nat → Attempt := fun i =>
  if i = 0 then .threw "network down" else .completed 404 [("message", .str "no")]

/-- Witness for C5 at a concrete run: the 404 is returned on attempt 2 with
no retry on it. -/
theorem c5_witness :
    (∀ t, t < 1 → attemptFails (c5Attempts t) = true) ∧
    c5Attempts 1 = .completed 404 [("message", .str "no")] ∧
    fetchWithRetry c5Attempts 3 =
      ⟨.returned 404 [("message", .str "no")], 2, [1000]⟩ :=
  ⟨by decide, rfl,
   c5_no_retry_on_business c5Attempts 3 1 404 [("message", .str "no")]
     (by decide) rfl (by decide) (by decide)⟩

/-- Claim C6.  Logout from any session environment is deterministic: it
takes no `CallResult` (no network call), always succeeds (it is a total
function into `Env` with no failure channel), clears durable storage, and
leaves exactly `{user: none, token: none, authenticated: false,
loading: false}`. -/
theorem c6_logout_determinism (env : Env) :
    logout env = ⟨⟨none, none, false, false⟩, none⟩ := rfl

/-- Process start with empty storage. -/
def c7Trace0 : GEnv := ⟨⟨initState none, none⟩, false⟩

/-- Bootstrap finds no token. -/
def c7Trace1 : GEnv := loadUserG c7Trace0 .threw

/-- A fully successful login: 2xx login response, 2xx identity fetch. -/
def c7Trace2 : GEnv :=
  loginG c7Trace1 (.resp 200 [("token", .str "t1")]) (.resp 200 [("first", .str "Acme")])

/-- A second login whose login call succeeds but whose identity fetch
throws, issued while already authenticated. -/
def c7Trace3 : GEnv := loginG c7Trace2 (.resp 200 [("token", .str "t2")]) .threw

/-- Claim C7, counterexample.  The claim quantifies over every sequence of
Controller operations.  Calling login while already Authenticated, with a
2xx login response and a failing identity fetch, leaves the state
Authenticated (the catch keeps the previous state) although the most
recent identity fetch did not succeed, so the claimed iff fails on the
reachable state `c7Trace3`. -/
theorem c7_counterexample :
    Reachable c7Trace3 ∧
    ¬ (c7Trace3.env.state.isAuthenticated = true ↔
        (c7Trace3.env.state.token.isSome = true ∧
         c7Trace3.env.state.user.isSome = true ∧
         c7Trace3.lastFetchOk = true)) := by
  constructor
  · exact Reachable.step
      (Reachable.step
        (Reachable.step (Reachable.init none) (OpStep.bootstrap c7Trace0 .threw))
        (OpStep.loginStep c7Trace1 _ _))
      (OpStep.loginStep c7Trace2 _ _)
  · decide

/-- A login, invoked while unauthenticated, whose 2xx response body carries
no `token` field, followed by a successful identity fetch. -/
def tokenlessTrace : GEnv :=
  loginG c7Trace1 (.resp 200 []) (.resp 200 [("first", .str "Acme")])

/-- A second violation of the original C7 invariant, this time inside the
intended flow (login from an unauthenticated state): when the 2xx login
body has no `token` field, `setAuthState` (line 210) assigns the raw
`data.token` — `undefined` — to the state while still setting
`isAuthenticated: true` after the successful identity fetch, and storage
holds the string-coerced "undefined".  The program is Authenticated with
the Credential absent although the most recent identity fetch succeeded;
this forces the contract-conformity hypothesis in the amended claim. -/
theorem login_without_token_breaks_invariant :
    Reachable tokenlessTrace ∧
    tokenlessTrace.env.state.isAuthenticated = true ∧
    tokenPresent tokenlessTrace.env.state.token = false ∧
    tokenlessTrace.lastFetchOk = true ∧
    tokenlessTrace.env.storage = some "undefined" := by
  refine ⟨?_, by decide, by decide, by decide, by decide⟩
  exact Reachable.step
    (Reachable.step (Reachable.init none) (OpStep.bootstrap c7Trace0 .threw))
    (OpStep.loginStep c7Trace1 _ _)

/-- Claim C7, amended.  Along every sequence of Controller operations in
the program's intended flow — bootstrap, login and verifyOtp invoked only
while unauthenticated, as the spec's state typing (§4.3) prescribes, and
every 2xx login response carrying a token as §6's contract specifies —
`authenticated` is true iff the Credential and the UserRecord are both
present and the most recent identity fetch succeeded.  (Without the
contract restriction even the intended flow violates the iff: see
`login_without_token_breaks_invariant`.) -/
theorem c7_authenticated_iff (g : GEnv) (h : ReachableR g) :
    g.env.state.isAuthenticated = true ↔
      (tokenPresent g.env.state.token = true ∧ g.env.state.user.isSome = true ∧
       g.lastFetchOk = true) := by
  obtain ⟨h1, _⟩ := inv_reachableR h
  rw [h1]
  simp [Bool.and_eq_true, and_assoc]

/-- Witness for the amended C7 at a concrete intended-flow state: after a
bootstrap with no stored token and one contract-conforming fully
successful login, the state is Authenticated and both sides of the iff
hold. -/
theorem c7_witness :
    ReachableR c7Trace2 ∧
    (c7Trace2.env.state.isAuthenticated = true ↔
      (tokenPresent c7Trace2.env.state.token = true ∧
       c7Trace2.env.state.user.isSome = true ∧
       c7Trace2.lastFetchOk = true)) :=
  have hr : ReachableR c7Trace2 :=
    ReachableR.step
      (ReachableR.step (ReachableR.init none)
        (OpStepR.bootstrap c7Trace0 .threw (by decide)))
      (OpStepR.loginStep c7Trace1 _ _ (by decide) (by decide))
  ⟨hr, c7_authenticated_iff c7Trace2 hr⟩

/-- Claim C8.  A bootstrap run that finds no Credential in durable storage
terminates without throwing (`loadUser` is a total function with no failure
channel), performs no network call (the result is the same for every
`CallResult`, which the general conjunct shows by never inspecting it), and
from the process-start state yields the Anonymous state with
`loading = false` and storage still empty. -/
theorem c8_bootstrap_no_credential :
    (∀ (st : AuthState) (c : CallResult),
      loadUser ⟨st, none⟩ c = ⟨⟨st.user, st.token, st.isAuthenticated, false⟩, none⟩) ∧
    (∀ c : CallResult,
      loadUser ⟨initState none, none⟩ c = ⟨⟨none, none, false, false⟩, none⟩) :=
  ⟨fun _ _ => rfl, fun _ => rfl⟩

/-- Claim C9.  When SessionState holds no Credential, updateUserProfile and
updateAddress reject locally: the result is failure with the environment
(state and storage) unchanged, and it does not depend on the network oracle
— no network call is consulted. -/
theorem c9_local_unauthenticated (env : Env) (h : env.state.token = none) :
    (∀ (d : Obj) (c : CallResult), updateUserProfile env d c = (env, false)) ∧
    (∀ (a : Val) (c : CallResult), updateAddress env a c = (env, false)) := by
  constructor
  · intro d c
    simp [updateUserProfile, h]
  · intro a c
    simp [updateAddress, h]

/-- Witness for C9 at a concrete input. -/
theorem c9_witness :
    anonEnv.state.token = none ∧
    updateUserProfile anonEnv [] .threw = (anonEnv, false) ∧
    updateAddress anonEnv .null .threw = (anonEnv, false) :=
  ⟨rfl, (c9_local_unauthenticated anonEnv rfl).1 [] .threw,
        (c9_local_unauthenticated anonEnv rfl).2 .null .threw⟩

/-- Claim C10.  A successful updateAddress call made with a (truthy) user
present sets the user's `address` field to exactly the caller's
`addressData`, leaves every other user field untouched, leaves token,
authenticated, loading and durable storage unchanged, and ignores the
response body entirely (the result is the same for every 2xx body). -/
theorem c10_update_address_frame (env : Env) (tk : Val) (a : Val) (s : Nat) (b : Obj)
    (htk : env.state.token = some tk) (hu : truthyOpt env.state.user = true)
    (hs : respOk s = true) :
    (updateAddress env a (.resp s b)).2 = true ∧
    List.lookup "address"
      (userFields (updateAddress env a (.resp s b)).1.state.user) = some a ∧
    (∀ k, k ≠ "address" →
      List.lookup k (userFields (updateAddress env a (.resp s b)).1.state.user) =
        List.lookup k (userFields env.state.user)) ∧
    (updateAddress env a (.resp s b)).1.state.token = env.state.token ∧
    (updateAddress env a (.resp s b)).1.state.isAuthenticated = env.state.isAuthenticated ∧
    (updateAddress env a (.resp s b)).1.state.isLoading = env.state.isLoading ∧
    (updateAddress env a (.resp s b)).1.storage = env.storage ∧
    (∀ b2 : Obj, updateAddress env a (.resp s b2) = updateAddress env a (.resp s b)) := by
  have hred : ∀ b2 : Obj, updateAddress env a (.resp s b2) =
      ({ env with state := { env.state with
          user := some (.obj (spreadObj (userFields env.state.user)
            [("address", a)])) } }, true) := by
    intro b2
    simp [updateAddress, htk, hs, hu]
  refine ⟨?_, ?_, ?_, ?_, ?_, ?_, ?_, ?_⟩
  · rw [hred]
  · rw [hred]
    simp only [userFields, Option.getD_some, valFields]
    rw [lookup_spreadObj]
    simp [List.lookup]
  · intro k hk
    rw [hred]
    simp only [userFields, Option.getD_some, valFields]
    rw [lookup_spreadObj]
    have hnone : List.lookup k [("address", a)] = none := by
      simp [List.lookup, beq_eq_false_iff_ne.mpr hk]
    rw [hnone]
  · rw [hred]
  · rw [hred]
  · rw [hred]
  · rw [hred]
  · intro b2
    rw [hred b2, hred b]

/-- An authenticated session whose user has a name and an old address. -/
def c10Env : Env :=
  ⟨⟨some (.obj [("first", .str "A"), ("address", .str "old")]),
    some (.str "tok"), true, false⟩, some "tok"⟩

/-- Witness for C10 at a concrete input. -/
theorem c10_witness :
    c10Env.state.token = some (.str "tok") ∧ truthyOpt c10Env.state.user = true ∧
    respOk 200 = true ∧
    ((updateAddress c10Env (.str "home") (.resp 200 [])).2 = true ∧
     List.lookup "address"
       (userFields (updateAddress c10Env (.str "home") (.resp 200 [])).1.state.user) =
       some (.str "home") ∧
     (∀ k, k ≠ "address" →
       List.lookup k
           (userFields (updateAddress c10Env (.str "home") (.resp 200 [])).1.state.user) =
         List.lookup k (userFields c10Env.state.user)) ∧
     (updateAddress c10Env (.str "home") (.resp 200 [])).1.state.token =
       c10Env.state.token ∧
     (updateAddress c10Env (.str "home") (.resp 200 [])).1.state.isAuthenticated =
       c10Env.state.isAuthenticated ∧
     (updateAddress c10Env (.str "home") (.resp 200 [])).1.state.isLoading =
       c10Env.state.isLoading ∧
     (updateAddress c10Env (.str "home") (.resp 200 [])).1.storage = c10Env.storage ∧
     (∀ b2 : Obj, updateAddress c10Env (.str "home") (.resp 200 b2) =
       updateAddress c10Env (.str "home") (.resp 200 []))) :=
  ⟨rfl, rfl, by decide,
   c10_update_address_frame c10Env (.str "tok") (.str "home") 200 [] rfl rfl (by decide)⟩

end AuthSpec
